import Mathlib

/-!
Verification of `finetune/lora.py` (LoRA fine-tuning orchestrator).

This file gives a shallow embedding of the script's pure control logic:
the `setup` configuration checks, the `get_batch` sampler, the training
loop's warmup / gradient-accumulation state machine, and the `validate`
evaluation loop.  External collaborators (the model forward pass, the
loss kernel `chunked_cross_entropy`, the tokenizer, the generation
sampler, and torch's random number generator) are modelled as explicit
oracle parameters: randomness is a stream `rng : ℕ → ℕ` together with a
cursor position, matching the single global RNG the script consumes.
-/

set_option maxRecDepth 8000

/-! ### Module-level hyperparameters (lora.py lines 32-56) -/

def eval_interval : ℕ := 30

def save_interval : ℕ := 100

def eval_iters : ℕ := 300

def log_interval : ℕ := 100

def learning_rate : ℚ := 1 / 10000

def batch_size : ℕ := 96

def micro_batch_size : ℕ := 3

def gradient_accumulation_iters : ℕ := batch_size / micro_batch_size

def max_iters : ℕ := 12000

def warmup_steps : ℕ := 100

/-! ### String helpers

The script tests `quantize.startswith("bnb.")` and `"mixed" in precision`.
We implement these over the character lists of the strings so that all
checks are kernel-computable. -/

def startsWithChars (s pre : List Char) : Bool := s.take pre.length == pre

def strStartsWith (s pre : String) : Bool := startsWithChars s.toList pre.toList

def containsChars (s pat : List Char) : Bool :=
  (List.range (s.length + 1)).any fun i => startsWithChars (s.drop i) pat

def strContains (s pat : String) : Bool := containsChars s.toList pat.toList

/-! ### setup (lora.py lines 63-102)

`setup` receives `precision : Optional[str]` (default `None`; line 70 keeps
it as passed) and `quantize : Optional[str]`.  Lines 74-78 run first: when a
`bnb.` quantization mode is requested, Python evaluates `"mixed" in precision`
(a `TypeError` when `precision is None`), then looks `precision` up in a
three-key dtype dict (a `KeyError` for any other string).  Only afterwards do
lines 81-86 test `devices > 1` and raise `NotImplementedError` for quantized
multi-device runs.  Training work (fabric.launch → main → batches/model)
starts only at line 102, after every one of these checks. -/

inductive DType
  | float16
  | bfloat16
  | float32
  deriving DecidableEq

inductive SetupError
  | typeErrorNonePrecision
  | valueErrorMixedQuant
  | keyErrorUnknownPrecision
  | notImplementedMultiDeviceQuant
  deriving DecidableEq

inductive Strategy
  | fsdp
  | auto
  deriving DecidableEq

structure BnbPlugins where
  mode : List Char
  dtype : DType
  deriving DecidableEq

structure SetupResult where
  strategy : Strategy
  plugins : Option BnbPlugins
  deriving DecidableEq

def dtypeOf (p : String) : Option DType :=
  if p.toList == "16-true".toList then some .float16
  else if p.toList == "bf16-true".toList then some .bfloat16
  else if p.toList == "32-true".toList then some .float32
  else none

def quantizeTruthy (quantize : Option String) : Bool :=
  match quantize with
  | none => false
  | some q => !q.toList.isEmpty

def setupPlugins (precision : Option String) (quantize : Option String) :
    Except SetupError (Option BnbPlugins) :=
  match quantize with
  | some q =>
    if strStartsWith q "bnb." then
      match precision with
      | none => .error .typeErrorNonePrecision
      | some p =>
        if strContains p "mixed" then .error .valueErrorMixedQuant
        else
          match dtypeOf p with
          | none => .error .keyErrorUnknownPrecision
          | some d => .ok (some ⟨q.toList.drop 4, d⟩)
    else .ok none
  | none => .ok none

def setupStrategy (deviceCount : ℕ) (quantize : Option String) : Except SetupError Strategy :=
  if 1 < deviceCount then
    if quantizeTruthy quantize then .error .notImplementedMultiDeviceQuant
    else .ok .fsdp
  else .ok .auto

def setup (deviceCount : ℕ) (precision : Option String) (quantize : Option String) :
    Except SetupError SetupResult :=
  match setupPlugins precision quantize with
  | .error e => .error e
  | .ok plugins =>
    match setupStrategy deviceCount quantize with
    | .error e => .error e
    | .ok strategy => .ok ⟨strategy, plugins⟩

/-- Modelled from the spec: the spec's §7 error taxonomy calls
"incompatible quantization/precision/device-count combinations" a
`ConfigurationError`.  In the code these are the explicit `raise ValueError`
(quantize + mixed precision, line 76) and `raise NotImplementedError`
(quantize + multi-device, line 83) decisions.  The `TypeError` from
evaluating `"mixed" in None` and the `KeyError` from the dtype dict lookup
are incidental crashes of the check itself, not configuration decisions. -/
def IsConfigurationError : SetupError → Prop
  | .valueErrorMixedQuant => True
  | .notImplementedMultiDeviceQuant => True
  | .typeErrorNonePrecision => False
  | .keyErrorUnknownPrecision => False

/-! ### get_batch (lora.py lines 357-383)

An example is a pair of token-id / label sequences.  `torch.randint(len(data),
(micro_batch_size,))` is modelled by reading `micro_batch_size` values from the
RNG stream at the cursor and reducing them into the index space `[0, len data)`;
`torch.randint` raises a RuntimeError when `len(data) == 0`, before anything is
drawn.  The `.type(torch.int64)` casts are identity on our integer values. -/

structure Example where
  input_ids : List ℤ
  labels : List ℤ
  deriving DecidableEq

/-- Python `data[i]` for the in-range indices the sampler produces. -/
def dataGet (data : List Example) (i : ℕ) : Example := data.getD i ⟨[], []⟩

/-- The `micro_batch_size` raw draws `torch.randint(n, (micro_batch_size,))`
starting at cursor `pos` of the stream `rng`. -/
def sampledIx (rng : ℕ → ℕ) (pos : ℕ) (n : ℕ) : List ℕ :=
  (List.range micro_batch_size).map fun k => rng (pos + k) % n

/-- Line 361-363: `if longest_seq_ix is not None: ix[0] = longest_seq_ix`. -/
def effectiveIx (ix : List ℕ) (longest_seq_ix : Option ℕ) : List ℕ :=
  match longest_seq_ix with
  | none => ix
  | some j => ix.set 0 j

/-- Lines 371-374: right-pad `x` with `pad_id` up to `max_len`. -/
def pad_right (x : List ℤ) (max_len : ℕ) (pad_id : ℤ) : List ℤ :=
  x ++ List.replicate (max_len - x.length) pad_id

/-- Line 369: `max(len(s) for s in input_ids)` (the drawn batch is nonempty,
so the fold over the lengths computes the genuine maximum). -/
def maxLenOf (rows : List (List ℤ)) : ℕ := (rows.map List.length).foldl max 0

/-- The local `ix` of `get_batch` after the optional slot-0 override. -/
def batchIx (rng : ℕ → ℕ) (pos : ℕ) (data : List Example)
    (longest_seq_ix : Option ℕ) : List ℕ :=
  effectiveIx (sampledIx rng pos data.length) longest_seq_ix

/-- The local `input_ids` of `get_batch` (line 365). -/
def batchInputs (rng : ℕ → ℕ) (pos : ℕ) (data : List Example)
    (longest_seq_ix : Option ℕ) : List (List ℤ) :=
  (batchIx rng pos data longest_seq_ix).map fun i => (dataGet data i).input_ids

/-- The local `labels` of `get_batch` (line 366). -/
def batchLabels (rng : ℕ → ℕ) (pos : ℕ) (data : List Example)
    (longest_seq_ix : Option ℕ) : List (List ℤ) :=
  (batchIx rng pos data longest_seq_ix).map fun i => (dataGet data i).labels

/-- The successful body of `get_batch`: draw, override slot 0, gather the
examples, right-pad inputs with 0 and labels with -1, and advance the RNG
cursor past the `micro_batch_size` consumed draws. -/
def getBatchCore (rng : ℕ → ℕ) (pos : ℕ) (data : List Example)
    (longest_seq_ix : Option ℕ) : (List (List ℤ) × List (List ℤ)) × ℕ :=
  let input_ids := batchInputs rng pos data longest_seq_ix
  let labels := batchLabels rng pos data longest_seq_ix
  let max_len := maxLenOf input_ids
  ((input_ids.map fun s => pad_right s max_len 0,
    labels.map fun s => pad_right s max_len (-1)), pos + micro_batch_size)

inductive BatchError
  | emptyDatasetError
  | randintEmptyRange
  deriving DecidableEq

/-- The sampler `get_batch`.  On an empty example set, `torch.randint(0, (3,))` at line
360 raises a generic RuntimeError (invalid empty draw range), modelled as
`BatchError.randintEmptyRange`.  The constructor
`BatchError.emptyDatasetError` is modelled from the spec: the spec's §7
taxonomy promises a distinguished `EmptyDatasetError`, which the code never
raises; the constructor exists so the distinction can be stated. -/
def get_batch (rng : ℕ → ℕ) (pos : ℕ) (data : List Example)
    (longest_seq_ix : Option ℕ) :
    Except BatchError ((List (List ℤ) × List (List ℤ)) × ℕ) :=
  if data.length = 0 then .error .randintEmptyRange
  else .ok (getBatchCore rng pos data longest_seq_ix)

/-- Line 216: `get_batch(fabric, train_data, longest_seq_ix if iter_num == 0
else None)` — the override the training loop hands to the sampler. -/
def trainLongestOverride (longest_seq_ix : ℕ) (iter_num : ℕ) : Option ℕ :=
  if iter_num = 0 then some longest_seq_ix else none

/-- lora.py lines 386-391. -/
def get_longest_seq_length (data : List Example) : ℕ × ℕ :=
  let lengths := data.map fun d => d.input_ids.length
  let longest_seq_length := lengths.foldl max 0
  (longest_seq_length, lengths.indexOf longest_seq_length)

/-! ### The training loop state machine (lora.py lines 203-256)

The loop state the claims are about is `step_count` (line 203 / line 229),
the number of `optimizer.step()` calls performed (`opt_steps`), and the
learning rate currently set on the optimizer's parameter groups.  The
optimizer is constructed with `lr=learning_rate` (line 149).  Forward,
backward and the loss value are external and do not feed back into this
state. -/

structure TrainState where
  step_count : ℕ
  opt_steps : ℕ
  lr : ℚ
  deriving DecidableEq

def initTrainState : TrainState := ⟨0, 0, learning_rate⟩

/-- Lines 208-212: `if step_count <= warmup_steps: lr = learning_rate *
step_count / warmup_steps`, applied to every parameter group. -/
def lrUpdate (s : TrainState) : TrainState :=
  if s.step_count ≤ warmup_steps then
    { s with lr := learning_rate * (s.step_count : ℚ) / (warmup_steps : ℚ) }
  else s

/-- Line 218: `is_accumulating = (iter_num + 1) % gradient_accumulation_iters != 0`. -/
def is_accumulating (iter_num : ℕ) : Bool :=
  (iter_num + 1) % gradient_accumulation_iters != 0

/-- Lines 226-229: `if not is_accumulating: optimizer.step();
optimizer.zero_grad(); step_count += 1`. -/
def optimizerPhase (iter_num : ℕ) (s : TrainState) : TrainState :=
  if is_accumulating iter_num then s
  else { s with opt_steps := s.opt_steps + 1, step_count := s.step_count + 1 }

/-- One iteration of the `for iter_num in range(max_iters)` loop, restricted
to the state tracked here. -/
def trainStep (iter_num : ℕ) (s : TrainState) : TrainState :=
  optimizerPhase iter_num (lrUpdate s)

/-- The loop state entering iteration `n` (after `n` completed iterations). -/
def trainStateAt : ℕ → TrainState
  | 0 => initTrainState
  | n + 1 => trainStep n (trainStateAt n)

/-- The learning rate in force during the forward/backward of iteration `i`
(after the warmup assignment at the top of the iteration). -/
def lrUsed (i : ℕ) : ℚ := (lrUpdate (trainStateAt i)).lr

/-! ### validate (lora.py lines 259-286)

`validate` switches the model to inference mode (`model.eval()`), runs
`eval_iters` loss iterations, takes `losses.mean()`, then renders one
qualitative generation sample (prompt templating, encoding, KV-cache
allocation, `generate`, decoding), and only then calls `model.train()` and
returns.  There is no `try`/`finally` around any of it.  The model forward
pass and the whole sample-rendering block are external and fallible (e.g.
out-of-memory); they are oracle parameters returning `Except`.  The loss
kernel `chunked_cross_entropy` is an external oracle `ce`; `validate` hands
it `logits[..., :-1, :]` and `targets[..., 1:]` (line 267).  The generation
sample consumes torch randomness of its own (temperature 0.8), but through
the external `generate` collaborator; only the `get_batch` draws are
tracked by the RNG cursor here. -/

inductive Mode
  | trainMode
  | evalMode
  deriving DecidableEq

inductive RuntimeErr
  | runtimeError
  deriving DecidableEq

inductive VErr
  | batch (e : BatchError)
  | runtime (e : RuntimeErr)
  deriving DecidableEq

/-- Slice `logits[..., :-1, :]`: drop the final position of every row. -/
def shiftLogits {α : Type} (logits : List (List α)) : List (List α) :=
  logits.map List.dropLast

/-- Slice `targets[..., 1:]`: drop position 0 of every row. -/
def shiftTargets (targets : List (List ℤ)) : List (List ℤ) :=
  targets.map (List.drop 1)

/-- The `for k in range(eval_iters)` loop of lines 264-267, unrolling from
the iteration count down: each iteration draws a batch at the current RNG
cursor, runs the external forward pass, and records
`ce(logits[..., :-1, :], targets[..., 1:])`. -/
def validateLosses {α : Type} (ce : List (List α) → List (List ℤ) → ℚ)
    (forward : List (List ℤ) → Except RuntimeErr (List (List α)))
    (rng : ℕ → ℕ) (data : List Example) : ℕ → ℕ → Except VErr (List ℚ × ℕ)
  | 0, pos => .ok ([], pos)
  | k + 1, pos =>
    match get_batch rng pos data none with
    | .error e => .error (.batch e)
    | .ok b =>
      match forward b.1.1 with
      | .error e => .error (.runtime e)
      | .ok logits =>
        match validateLosses ce forward rng data k b.2 with
        | .error e => .error e
        | .ok r =>
          .ok (ce (shiftLogits logits) (shiftTargets b.1.2) :: r.1, r.2)

/-- The function `validate`: the returned `Mode` is the model's mode when control leaves
the function (normally or by a propagating exception); on success the
payload carries `losses.mean()` and the final RNG cursor. -/
def validate {α : Type} (ce : List (List α) → List (List ℤ) → ℚ)
    (forward : List (List ℤ) → Except RuntimeErr (List (List α)))
    (sampleBlock : Except RuntimeErr Unit)
    (rng : ℕ → ℕ) (data : List Example) (pos : ℕ) :
    Except VErr (ℚ × ℕ) × Mode :=
  match validateLosses ce forward rng data eval_iters pos with
  | .error e => (.error e, .evalMode)
  | .ok r =>
    match sampleBlock with
    | .error e => (.error (.runtime e), .evalMode)
    | .ok _ => (.ok (r.1.sum / (eval_iters : ℚ), r.2), .trainMode)

/-- Projection used to compare the mean losses of two runs. -/
def valMean (r : Except VErr (ℚ × ℕ) × Mode) : Except VErr ℚ :=
  match r.1 with
  | .ok p => .ok p.1
  | .error e => .error e

/-- The loss recorded by the validation iteration whose `get_batch` call
happens at RNG cursor `q`, when the forward pass is the pure function `f`:
`ce(logits[..., :-1, :], targets[..., 1:])` for that batch. -/
def valLossAt {α : Type} (ce : List (List α) → List (List ℤ) → ℚ)
    (f : List (List ℤ) → List (List α)) (rng : ℕ → ℕ) (data : List Example)
    (q : ℕ) : ℚ :=
  ce (shiftLogits (f (getBatchCore rng q data none).1.1))
    (shiftTargets (getBatchCore rng q data none).1.2)

/-! ### Helper lemmas -/

theorem foldl_max_mem_cons (l : List ℕ) (a : ℕ) : l.foldl max a ∈ a :: l := by
  induction l generalizing a with
  | nil => simp
  | cons b t ih =>
    have h := ih (max a b)
    have hfold : (b :: t).foldl max a = t.foldl max (max a b) := rfl
    rw [hfold]
    rcases List.mem_cons.mp h with h1 | h1
    · rcases max_choice a b with h2 | h2
      · rw [h1, h2]
        exact List.mem_cons_self _ _
      · rw [h1, h2]
        exact List.mem_cons_of_mem _ (List.mem_cons_self _ _)
    · exact List.mem_cons_of_mem _ (List.mem_cons_of_mem _ h1)

theorem le_foldl_max (l : List ℕ) (a : ℕ) : a ≤ l.foldl max a := by
  induction l generalizing a with
  | nil => simp
  | cons b t ih => exact le_trans (le_max_left a b) (ih (max a b))

theorem mem_le_foldl_max (l : List ℕ) (a x : ℕ) (hx : x ∈ l) : x ≤ l.foldl max a := by
  induction l generalizing a with
  | nil => cases hx
  | cons b t ih =>
    rcases List.mem_cons.mp hx with h | h
    · subst h
      exact le_trans (le_max_right a x) (le_foldl_max t (max a x))
    · exact ih (max a b) h

theorem foldl_max_zero_mem (l : List ℕ) (h : l ≠ []) : l.foldl max 0 ∈ l := by
  rcases List.mem_cons.mp (foldl_max_mem_cons l 0) with h0 | h0
  · cases l with
    | nil => exact absurd rfl h
    | cons b t =>
      have hb : b ≤ 0 := h0 ▸ mem_le_foldl_max (b :: t) 0 b (by simp)
      have : b = 0 := Nat.le_zero.mp hb
      rw [h0, ← this]
      simp
  · exact h0

theorem pad_right_length (x : List ℤ) (m : ℕ) (p : ℤ) (h : x.length ≤ m) :
    (pad_right x m p).length = m := by
  simp [pad_right]
  omega

theorem pad_right_get_pad (x : List ℤ) (m : ℕ) (p : ℤ) (j : ℕ)
    (h1 : x.length ≤ j) (h2 : j < m) : (pad_right x m p).get? j = some p := by
  unfold pad_right
  rw [List.get?_append_right h1, List.get?_eq_getElem?, List.getElem?_replicate,
    if_pos (by omega)]

theorem list_eq_range_map_getD (l : List ℕ) :
    (List.range l.length).map (fun k => l.getD k 0) = l := by
  induction l with
  | nil => simp
  | cons b t ih =>
    rw [List.length_cons, List.range_succ_eq_map, List.map_cons, List.map_map]
    have h2 : ∀ k ∈ List.range t.length,
        ((fun k => (b :: t).getD k 0) ∘ Nat.succ) k = (fun k => t.getD k 0) k := by
      intro k _
      simp
    rw [List.map_congr_left h2, ih]
    simp

/-- The warmup assignment `lrUpdate` only touches the learning rate. -/
theorem lrUpdate_counters (s : TrainState) :
    (lrUpdate s).step_count = s.step_count ∧ (lrUpdate s).opt_steps = s.opt_steps := by
  unfold lrUpdate
  split <;> simp

/-- The step `optimizerPhase` never touches the learning rate. -/
theorem optimizerPhase_lr (i : ℕ) (s : TrainState) : (optimizerPhase i s).lr = s.lr := by
  unfold optimizerPhase
  split <;> simp

theorem is_accumulating_iff (i : ℕ) :
    is_accumulating i = true ↔ (i + 1) % gradient_accumulation_iters ≠ 0 := by
  simp [is_accumulating]

theorem trainStateAt_succ_opt_steps (n : ℕ) :
    (trainStateAt (n + 1)).opt_steps =
      (trainStateAt n).opt_steps +
        (if (n + 1) % gradient_accumulation_iters = 0 then 1 else 0) := by
  show (trainStep n (trainStateAt n)).opt_steps = _
  unfold trainStep optimizerPhase
  rcases h : is_accumulating n with hf | ht
  · have : (n + 1) % gradient_accumulation_iters = 0 := by
      have := (is_accumulating_iff n)
      simp [h] at this
      exact this
    simp [h, this, (lrUpdate_counters (trainStateAt n)).2]
  · have : (n + 1) % gradient_accumulation_iters ≠ 0 := (is_accumulating_iff n).mp h
    simp [h, this, (lrUpdate_counters (trainStateAt n)).2]

theorem trainStateAt_succ_step_count (n : ℕ) :
    (trainStateAt (n + 1)).step_count =
      (trainStateAt n).step_count +
        (if (n + 1) % gradient_accumulation_iters = 0 then 1 else 0) := by
  show (trainStep n (trainStateAt n)).step_count = _
  unfold trainStep optimizerPhase
  rcases h : is_accumulating n with hf | ht
  · have : (n + 1) % gradient_accumulation_iters = 0 := by
      have := (is_accumulating_iff n)
      simp [h] at this
      exact this
    simp [h, this, (lrUpdate_counters (trainStateAt n)).1]
  · have : (n + 1) % gradient_accumulation_iters ≠ 0 := (is_accumulating_iff n).mp h
    simp [h, this, (lrUpdate_counters (trainStateAt n)).1]

theorem gradient_accumulation_iters_eq : gradient_accumulation_iters = 32 := rfl

theorem trainStateAt_opt_steps (n : ℕ) :
    (trainStateAt n).opt_steps = n / gradient_accumulation_iters := by
  induction n with
  | zero => simp [trainStateAt, initTrainState]
  | succ n ih =>
    rw [trainStateAt_succ_opt_steps, ih, Nat.succ_div]
    congr 1
    have : ((n + 1) % gradient_accumulation_iters = 0) ↔ gradient_accumulation_iters ∣ n + 1 := by
      rw [gradient_accumulation_iters_eq]
      omega
    by_cases h : (n + 1) % gradient_accumulation_iters = 0
    · rw [if_pos h, if_pos (this.mp h)]
    · rw [if_neg h, if_neg (fun hd => h (this.mpr hd))]

theorem trainStateAt_step_count (n : ℕ) :
    (trainStateAt n).step_count = n / gradient_accumulation_iters := by
  induction n with
  | zero => simp [trainStateAt, initTrainState]
  | succ n ih =>
    rw [trainStateAt_succ_step_count, ih, Nat.succ_div]
    congr 1
    have : ((n + 1) % gradient_accumulation_iters = 0) ↔ gradient_accumulation_iters ∣ n + 1 := by
      rw [gradient_accumulation_iters_eq]
      omega
    by_cases h : (n + 1) % gradient_accumulation_iters = 0
    · rw [if_pos h, if_pos (this.mp h)]
    · rw [if_neg h, if_neg (fun hd => h (this.mpr hd))]

theorem trainStateAt_succ_lr (n : ℕ) : (trainStateAt (n + 1)).lr = lrUsed n := by
  show (trainStep n (trainStateAt n)).lr = _
  unfold trainStep lrUsed
  exact optimizerPhase_lr n (lrUpdate (trainStateAt n))

theorem lrUsed_of_le (i : ℕ) (h : (trainStateAt i).step_count ≤ warmup_steps) :
    lrUsed i = learning_rate * ((trainStateAt i).step_count : ℚ) / (warmup_steps : ℚ) := by
  unfold lrUsed lrUpdate
  rw [if_pos h]

theorem lrUsed_of_gt (i : ℕ) (h : warmup_steps < (trainStateAt i).step_count) :
    lrUsed i = (trainStateAt i).lr := by
  unfold lrUsed lrUpdate
  rw [if_neg (not_le.mpr h)]

theorem lrUsed_after_warmup (i : ℕ) (h : 3232 ≤ i) : lrUsed i = learning_rate := by
  induction i, h using Nat.le_induction with
  | base =>
    have hsc : (trainStateAt 3232).step_count = 101 := by
      rw [trainStateAt_step_count, gradient_accumulation_iters_eq]
    have h1 : lrUsed 3232 = (trainStateAt 3232).lr :=
      lrUsed_of_gt 3232 (by rw [hsc]; norm_num [warmup_steps])
    have h2 : (trainStateAt 3232).lr = lrUsed 3231 := trainStateAt_succ_lr 3231
    have hsc2 : (trainStateAt 3231).step_count = 100 := by
      rw [trainStateAt_step_count, gradient_accumulation_iters_eq]
    have h3 : lrUsed 3231 = learning_rate * ((trainStateAt 3231).step_count : ℚ) / (warmup_steps : ℚ) :=
      lrUsed_of_le 3231 (by rw [hsc2]; norm_num [warmup_steps])
    rw [h1, h2, h3, hsc2]
    norm_num [warmup_steps]
  | succ n hn ih =>
    have hsc : warmup_steps < (trainStateAt (n + 1)).step_count := by
      rw [trainStateAt_step_count, gradient_accumulation_iters_eq]
      rw [show warmup_steps = 100 from rfl]
      have : 101 ≤ (n + 1) / 32 := (Nat.le_div_iff_mul_le (by norm_num)).mpr (by omega)
      omega
    rw [lrUsed_of_gt (n + 1) hsc, trainStateAt_succ_lr n, ih]

/-! ### Claim theorems -/

/-- C1: in the training loop the optimizer steps (optimizer.step, zero_grad
and step-count increment) iff `(iter_num + 1) % gradient_accumulation_iters
== 0`; after `N` iterations the optimizer-step count equals
`⌊N / gradient_accumulation_iters⌋` (and so does `step_count`); and on an
accumulating iteration the whole loop state other than the learning-rate
assignment — in particular the optimizer state — is left untouched. -/
theorem train_optimizer_step_boundary :
    (∀ i : ℕ, (trainStateAt (i + 1)).opt_steps ≠ (trainStateAt i).opt_steps ↔
      (i + 1) % gradient_accumulation_iters = 0) ∧
    (∀ i : ℕ, (i + 1) % gradient_accumulation_iters ≠ 0 →
      trainStateAt (i + 1) = { trainStateAt i with lr := lrUsed i }) ∧
    (∀ N : ℕ, (trainStateAt N).opt_steps = N / gradient_accumulation_iters) ∧
    (∀ N : ℕ, (trainStateAt N).step_count = N / gradient_accumulation_iters) := by
  refine ⟨?_, ?_, trainStateAt_opt_steps, trainStateAt_step_count⟩
  · intro i
    rw [trainStateAt_succ_opt_steps]
    by_cases h : (i + 1) % gradient_accumulation_iters = 0
    · simp [h]
    · simp [h]
  · intro i h
    have hacc : is_accumulating i = true := by
      rw [is_accumulating_iff]
      exact h
    have h1 : trainStateAt (i + 1) = lrUpdate (trainStateAt i) := by
      show trainStep i (trainStateAt i) = _
      unfold trainStep optimizerPhase
      rw [if_pos hacc]
    rw [h1]
    unfold lrUsed
    unfold lrUpdate
    split
    · rfl
    · rfl

/-- C1 witness: iteration 0 is an accumulating iteration and leaves the
optimizer state untouched. -/
theorem train_optimizer_step_boundary_witness :
    (0 + 1) % gradient_accumulation_iters ≠ 0 ∧
    trainStateAt (0 + 1) = { trainStateAt 0 with lr := lrUsed 0 } :=
  ⟨by decide, train_optimizer_step_boundary.2.1 0 (by decide)⟩

/-- C2: while `step_count ≤ warmup_steps` the learning rate applied by the
loop is `learning_rate * step_count / warmup_steps`; it is non-decreasing
over iterations whose step count is still within the warmup window; it
equals `learning_rate` exactly when `step_count = warmup_steps`; and it
remains `learning_rate` on every iteration with a larger step count (no
decay). -/
theorem train_warmup_lr :
    (∀ i : ℕ, (trainStateAt i).step_count ≤ warmup_steps →
      lrUsed i = learning_rate * ((trainStateAt i).step_count : ℚ) / (warmup_steps : ℚ)) ∧
    (∀ i j : ℕ, i ≤ j → (trainStateAt j).step_count ≤ warmup_steps →
      lrUsed i ≤ lrUsed j) ∧
    (∀ i : ℕ, (trainStateAt i).step_count = warmup_steps → lrUsed i = learning_rate) ∧
    (∀ i : ℕ, warmup_steps < (trainStateAt i).step_count → lrUsed i = learning_rate) := by
  refine ⟨fun i h => lrUsed_of_le i h, ?_, ?_, ?_⟩
  · intro i j hij hj
    have hsc : (trainStateAt i).step_count ≤ (trainStateAt j).step_count := by
      rw [trainStateAt_step_count, trainStateAt_step_count]
      exact Nat.div_le_div_right hij
    have hi : (trainStateAt i).step_count ≤ warmup_steps := le_trans hsc hj
    rw [lrUsed_of_le i hi, lrUsed_of_le j hj]
    have hcast : ((trainStateAt i).step_count : ℚ) ≤ ((trainStateAt j).step_count : ℚ) := by
      exact_mod_cast hsc
    have hlr : (0 : ℚ) ≤ learning_rate := by norm_num [learning_rate]
    have hw : (0 : ℚ) < (warmup_steps : ℚ) := by norm_num [warmup_steps]
    exact (div_le_div_iff_of_pos_right hw).mpr (mul_le_mul_of_nonneg_left hcast hlr)
  · intro i h
    rw [lrUsed_of_le i (le_of_eq h), h]
    norm_num [warmup_steps]
  · intro i h
    have h32 : 3232 ≤ i := by
      rw [trainStateAt_step_count, gradient_accumulation_iters_eq,
        show warmup_steps = 100 from rfl] at h
      have h1 : 101 ≤ i / 32 := h
      have h2 := (Nat.le_div_iff_mul_le (by norm_num : 0 < 32)).mp h1
      omega
    exact lrUsed_after_warmup i h32

/-- C2 witness: at iteration 0 the step count (0) is inside the warmup
window and the applied rate is `learning_rate * 0 / warmup_steps`. -/
theorem train_warmup_lr_witness :
    (trainStateAt 0).step_count ≤ warmup_steps ∧
    lrUsed 0 = learning_rate * ((trainStateAt 0).step_count : ℚ) / (warmup_steps : ℚ) :=
  ⟨by decide, train_warmup_lr.1 0 (by decide)⟩

/-! ### Batch sampler lemmas -/

theorem sampledIx_length (rng : ℕ → ℕ) (pos n : ℕ) :
    (sampledIx rng pos n).length = micro_batch_size := by
  simp [sampledIx]

theorem batchIx_length (rng : ℕ → ℕ) (pos : ℕ) (data : List Example)
    (o : Option ℕ) : (batchIx rng pos data o).length = micro_batch_size := by
  unfold batchIx effectiveIx
  cases o with
  | none => exact sampledIx_length rng pos data.length
  | some j => rw [List.length_set]; exact sampledIx_length rng pos data.length

theorem mem_sampledIx_lt (rng : ℕ → ℕ) (pos n : ℕ) (hn : 0 < n) :
    ∀ i ∈ sampledIx rng pos n, i < n := by
  intro i hi
  unfold sampledIx at hi
  obtain ⟨k, _, hk⟩ := List.mem_map.mp hi
  rw [← hk]
  exact Nat.mod_lt _ hn

theorem mem_batchIx_lt (rng : ℕ → ℕ) (pos : ℕ) (data : List Example)
    (o : Option ℕ) (hne : data ≠ [])
    (hover : ∀ j, o = some j → j < data.length) :
    ∀ i ∈ batchIx rng pos data o, i < data.length := by
  have hn : 0 < data.length := List.length_pos.mpr hne
  intro i hi
  unfold batchIx effectiveIx at hi
  cases o with
  | none => exact mem_sampledIx_lt rng pos data.length hn i hi
  | some j =>
    rcases List.mem_or_eq_of_mem_set hi with h | h
    · exact mem_sampledIx_lt rng pos data.length hn i h
    · exact h ▸ hover j rfl

theorem dataGet_mem (data : List Example) (i : ℕ) (hi : i < data.length) :
    dataGet data i ∈ data := by
  unfold dataGet
  rw [List.getD_eq_getElem?_getD, List.getElem?_eq_getElem hi]
  exact List.getElem_mem hi

theorem getD_mem_of_lt {α : Type} (l : List α) (k : ℕ) (d : α) (h : k < l.length) :
    l.getD k d ∈ l := by
  rw [List.getD_eq_getElem?_getD, List.getElem?_eq_getElem h]
  exact List.getElem_mem h

theorem map_getD_lt {α β : Type} (l : List α) (f : α → β) (k : ℕ) (d : α) (d2 : β)
    (hk : k < l.length) : (l.map f).getD k d2 = f (l.getD k d) := by
  rw [List.getD_eq_getElem?_getD, List.getD_eq_getElem?_getD, List.getElem?_map,
    List.getElem?_eq_getElem hk]
  rfl

theorem maxLenOf_mem (rows : List (List ℤ)) (h : rows ≠ []) :
    maxLenOf rows ∈ rows.map List.length := by
  unfold maxLenOf
  exact foldl_max_zero_mem _ (by simpa using h)

theorem maxLenOf_le (rows : List (List ℤ)) :
    ∀ s ∈ rows, s.length ≤ maxLenOf rows := by
  intro s hs
  exact mem_le_foldl_max _ 0 _ (List.mem_map_of_mem List.length hs)

theorem batchLabels_length_eq (rng : ℕ → ℕ) (pos : ℕ) (data : List Example)
    (o : Option ℕ) (hne : data ≠ [])
    (hover : ∀ j, o = some j → j < data.length)
    (hlen : ∀ e ∈ data, e.labels.length = e.input_ids.length) (k : ℕ)
    (hk : k < micro_batch_size) :
    ((batchLabels rng pos data o).getD k []).length =
      ((batchInputs rng pos data o).getD k []).length := by
  have hkx : k < (batchIx rng pos data o).length := by
    rw [batchIx_length]; exact hk
  unfold batchLabels batchInputs
  rw [map_getD_lt _ _ k 0 [] hkx, map_getD_lt _ _ k 0 [] hkx]
  have hmem : (batchIx rng pos data o).getD k 0 ∈ batchIx rng pos data o :=
    getD_mem_of_lt _ k 0 hkx
  have hlt := mem_batchIx_lt rng pos data o hne hover _ hmem
  exact hlen _ (dataGet_mem data _ hlt)

/-- C3: on a non-empty dataset whose examples have equally long input and
label sequences (and a valid override index when one is supplied),
`get_batch` succeeds, consumes exactly `micro_batch_size` draws, and returns
two `micro_batch_size`-row tensors whose common width is the length of the
longest example drawn in this call; every input position past an example's
own length is 0 and every label position past it is -1. -/
theorem get_batch_shape_padding (rng : ℕ → ℕ) (pos : ℕ) (data : List Example)
    (longest_seq_ix : Option ℕ) (hne : data ≠ [])
    (hover : ∀ j, longest_seq_ix = some j → j < data.length)
    (hlen : ∀ e ∈ data, e.labels.length = e.input_ids.length) :
    get_batch rng pos data longest_seq_ix = .ok (getBatchCore rng pos data longest_seq_ix) ∧
    (getBatchCore rng pos data longest_seq_ix).2 = pos + micro_batch_size ∧
    (getBatchCore rng pos data longest_seq_ix).1.1.length = micro_batch_size ∧
    (getBatchCore rng pos data longest_seq_ix).1.2.length = micro_batch_size ∧
    (∀ row ∈ (getBatchCore rng pos data longest_seq_ix).1.1,
      row.length = maxLenOf (batchInputs rng pos data longest_seq_ix)) ∧
    (∀ row ∈ (getBatchCore rng pos data longest_seq_ix).1.2,
      row.length = maxLenOf (batchInputs rng pos data longest_seq_ix)) ∧
    maxLenOf (batchInputs rng pos data longest_seq_ix) ∈
      (batchInputs rng pos data longest_seq_ix).map List.length ∧
    (∀ l ∈ (batchInputs rng pos data longest_seq_ix).map List.length,
      l ≤ maxLenOf (batchInputs rng pos data longest_seq_ix)) ∧
    (∀ k, k < micro_batch_size → ∀ j,
      ((batchInputs rng pos data longest_seq_ix).getD k []).length ≤ j →
      j < maxLenOf (batchInputs rng pos data longest_seq_ix) →
      ((getBatchCore rng pos data longest_seq_ix).1.1.getD k []).get? j = some 0 ∧
      ((getBatchCore rng pos data longest_seq_ix).1.2.getD k []).get? j = some (-1)) := by
  have hnz : data.length ≠ 0 := fun h0 => hne (List.length_eq_zero.mp h0)
  have hinputs_len : (batchInputs rng pos data longest_seq_ix).length = micro_batch_size := by
    unfold batchInputs
    rw [List.length_map, batchIx_length]
  have hlabels_len : (batchLabels rng pos data longest_seq_ix).length = micro_batch_size := by
    unfold batchLabels
    rw [List.length_map, batchIx_length]
  have hinputs_ne : batchInputs rng pos data longest_seq_ix ≠ [] := by
    intro h0
    rw [h0] at hinputs_len
    exact absurd hinputs_len.symm (by norm_num [micro_batch_size])
  refine ⟨?_, rfl, ?_, ?_, ?_, ?_, maxLenOf_mem _ hinputs_ne, ?_, ?_⟩
  · unfold get_batch
    rw [if_neg hnz]
  · show ((batchInputs rng pos data longest_seq_ix).map fun s =>
      pad_right s (maxLenOf (batchInputs rng pos data longest_seq_ix)) 0).length = _
    rw [List.length_map, hinputs_len]
  · show ((batchLabels rng pos data longest_seq_ix).map fun s =>
      pad_right s (maxLenOf (batchInputs rng pos data longest_seq_ix)) (-1)).length = _
    rw [List.length_map, hlabels_len]
  · intro row hrow
    obtain ⟨s, hs, hrow2⟩ := List.mem_map.mp hrow
    rw [← hrow2]
    exact pad_right_length s _ 0 (maxLenOf_le _ s hs)
  · intro row hrow
    obtain ⟨s, hs, hrow2⟩ := List.mem_map.mp hrow
    rw [← hrow2]
    obtain ⟨i, hi, hsi⟩ := List.mem_map.mp hs
    have hilt := mem_batchIx_lt rng pos data longest_seq_ix hne hover i hi
    have hsl : s.length ≤ maxLenOf (batchInputs rng pos data longest_seq_ix) := by
      rw [← hsi, hlen _ (dataGet_mem data i hilt)]
      refine maxLenOf_le _ _ ?_
      exact List.mem_map_of_mem _ hi
    exact pad_right_length s _ (-1) hsl
  · exact fun l hl => mem_le_foldl_max _ 0 l hl
  · intro k hk j hj1 hj2
    have hkx : k < (batchInputs rng pos data longest_seq_ix).length := by
      rw [hinputs_len]; exact hk
    have hky : k < (batchLabels rng pos data longest_seq_ix).length := by
      rw [hlabels_len]; exact hk
    constructor
    · show (((batchInputs rng pos data longest_seq_ix).map fun s =>
        pad_right s (maxLenOf (batchInputs rng pos data longest_seq_ix)) 0).getD k []).get? j = _
      rw [map_getD_lt _ _ k [] [] hkx]
      exact pad_right_get_pad _ _ 0 j hj1 hj2
    · show (((batchLabels rng pos data longest_seq_ix).map fun s =>
        pad_right s (maxLenOf (batchInputs rng pos data longest_seq_ix)) (-1)).getD k []).get? j = _
      rw [map_getD_lt _ _ k [] [] hky]
      refine pad_right_get_pad _ _ (-1) j ?_ hj2
      rw [batchLabels_length_eq rng pos data longest_seq_ix hne hover hlen k hk]
      exact hj1

/-- C3 witness: a concrete one-example dataset. -/
theorem get_batch_shape_padding_witness :
    (([⟨[1, 2], [5, 6]⟩] : List Example) ≠ [] ∧
      (∀ e ∈ ([⟨[1, 2], [5, 6]⟩] : List Example), e.labels.length = e.input_ids.length)) ∧
    get_batch (fun _ => 0) 0 ([⟨[1, 2], [5, 6]⟩] : List Example) none =
      .ok (getBatchCore (fun _ => 0) 0 ([⟨[1, 2], [5, 6]⟩] : List Example) none) :=
  ⟨⟨by decide, by decide⟩,
    (get_batch_shape_padding (fun _ => 0) 0 [⟨[1, 2], [5, 6]⟩] none (by decide)
      (fun j h => Option.noConfusion h) (by decide)).1⟩

/-- The three raw draws of one `get_batch` call, written out. -/
theorem sampledIx_eq (rng : ℕ → ℕ) (pos n : ℕ) :
    sampledIx rng pos n =
      [rng (pos + 0) % n, rng (pos + 1) % n, rng (pos + 2) % n] := rfl

/-- C8 counterexample: on an empty example set `get_batch` fails with the
generic invalid-range error of `torch.randint`, which is not the
distinguished `EmptyDatasetError` the claim promises. -/
theorem get_batch_empty_counterexample :
    get_batch (fun _ => 0) 0 ([] : List Example) none = .error .randintEmptyRange ∧
    BatchError.randintEmptyRange ≠ BatchError.emptyDatasetError :=
  ⟨rfl, by decide⟩

/-- C8 (amended): every call of `get_batch` on an empty example set fails,
but with the generic empty-draw-range RuntimeError raised by
`torch.randint(0, (micro_batch_size,))` at line 360, not with a
distinguished `EmptyDatasetError`. -/
theorem get_batch_empty_amended (rng : ℕ → ℕ) (pos : ℕ) (longest_seq_ix : Option ℕ) :
    get_batch rng pos ([] : List Example) longest_seq_ix = .error .randintEmptyRange := rfl

/-- C4: with an override index `j` (in range, on a non-empty dataset), slot
0 of the drawn index vector — and hence of the returned batch — is
deterministically example `j`, whatever the random draws; the other slots
are exactly what they would have been without the override; without an
override, slot `k` is its own independent draw reduced into the index space
`[0, len data)`, and every in-range index vector is realizable (choice with
replacement over the whole dataset); and the training loop supplies the
override exactly on iteration 0. -/
theorem get_batch_longest_override (rng : ℕ → ℕ) (pos : ℕ) (data : List Example)
    (j : ℕ) (hne : data ≠ []) (hj : j < data.length) :
    (batchIx rng pos data (some j)).get? 0 = some j ∧
    ((getBatchCore rng pos data (some j)).1.1).get? 0 =
      some (pad_right (dataGet data j).input_ids
        (maxLenOf (batchInputs rng pos data (some j))) 0) ∧
    ((getBatchCore rng pos data (some j)).1.2).get? 0 =
      some (pad_right (dataGet data j).labels
        (maxLenOf (batchInputs rng pos data (some j))) (-1)) ∧
    (∀ k, k ≠ 0 →
      (batchIx rng pos data (some j)).get? k = (batchIx rng pos data none).get? k) ∧
    (∀ k, k < micro_batch_size →
      (batchIx rng pos data none).get? k = some (rng (pos + k) % data.length) ∧
      rng (pos + k) % data.length < data.length) ∧
    (∀ target : List ℕ, target.length = micro_batch_size →
      (∀ i ∈ target, i < data.length) →
      ∃ rng2 : ℕ → ℕ, batchIx rng2 pos data none = target) ∧
    (trainLongestOverride j 0 = some j ∧
      ∀ i, i ≠ 0 → trainLongestOverride j i = none) := by
  have hn : 0 < data.length := List.length_pos.mpr hne
  refine ⟨rfl, rfl, rfl, ?_, ?_, ?_, rfl, ?_⟩
  · intro k hk
    cases k with
    | zero => exact absurd rfl hk
    | succ k => rfl
  · intro k hk
    have hk3 : k < 3 := hk
    constructor
    · rcases k with _ | _ | _ | k
      · rfl
      · rfl
      · rfl
      · omega
    · exact Nat.mod_lt _ hn
  · intro target htl hi
    rcases target with _ | ⟨t0, _ | ⟨t1, _ | ⟨t2, _ | ⟨t3, rest⟩⟩⟩⟩ <;>
      simp [micro_batch_size] at htl
    have h0 : t0 < data.length := hi t0 (by simp)
    have h1 : t1 < data.length := hi t1 (by simp)
    have h2 : t2 < data.length := hi t2 (by simp)
    refine ⟨fun t => [t0, t1, t2].getD (t - pos) 0, ?_⟩
    have e0 : pos + 0 - pos = 0 := by omega
    have e1 : pos + 1 - pos = 1 := by omega
    have e2 : pos + 2 - pos = 2 := by omega
    show effectiveIx (sampledIx _ pos data.length) none = _
    rw [sampledIx_eq]
    unfold effectiveIx
    rw [e0, e1, e2]
    show [t0 % data.length, t1 % data.length, t2 % data.length] = _
    rw [Nat.mod_eq_of_lt h0, Nat.mod_eq_of_lt h1, Nat.mod_eq_of_lt h2]
  · intro i hi
    unfold trainLongestOverride
    rw [if_neg hi]

/-- C4 witness: dataset of two examples, override index 1. -/
theorem get_batch_longest_override_witness :
    (([⟨[1], [2]⟩, ⟨[3, 4], [5, 6]⟩] : List Example) ≠ [] ∧
      1 < ([⟨[1], [2]⟩, ⟨[3, 4], [5, 6]⟩] : List Example).length) ∧
    (batchIx (fun _ => 0) 0 ([⟨[1], [2]⟩, ⟨[3, 4], [5, 6]⟩] : List Example)
      (some 1)).get? 0 = some 1 :=
  ⟨⟨by decide, by decide⟩,
    (get_batch_longest_override (fun _ => 0) 0 [⟨[1], [2]⟩, ⟨[3, 4], [5, 6]⟩] 1
      (by decide) (by decide)).1⟩

/-! ### setup lemmas -/

theorem string_toList_inj (s t : String) (h : s.toList = t.toList) : s = t := by
  cases s
  cases t
  exact congrArg String.mk h

theorem setup_eq_error_plugins (dc : ℕ) (pr qz : Option String) (e : SetupError)
    (h : setupPlugins pr qz = .error e) : setup dc pr qz = .error e := by
  unfold setup
  rw [h]

theorem setup_eq_error_strategy (dc : ℕ) (pr qz : Option String)
    (pl : Option BnbPlugins) (e : SetupError)
    (h1 : setupPlugins pr qz = .ok pl) (h2 : setupStrategy dc qz = .error e) :
    setup dc pr qz = .error e := by
  unfold setup
  rw [h1, h2]

theorem strStartsWith_bnb_ne_empty (q : String)
    (hq : strStartsWith q "bnb." = true) : q.toList.isEmpty = false := by
  unfold strStartsWith startsWithChars at hq
  cases hcl : q.toList with
  | nil =>
    rw [hcl] at hq
    exact absurd hq (by decide)
  | cons c t => rfl

/-- When a valid precision string is supplied, the precision-compatibility
check passes and a multi-device quantized configuration dies on the explicit
`NotImplementedError` decision of lines 81-86. -/
theorem setup_quant_valid_precision (d : ℕ) (p q : String) (hd : 1 < d)
    (hq : strStartsWith q "bnb." = true)
    (h1 : strContains p "mixed" = false) (d2 : DType) (h2 : dtypeOf p = some d2) :
    setup d (some p) (some q) = .error .notImplementedMultiDeviceQuant := by
  have hplug : setupPlugins (some p) (some q) = .ok (some ⟨q.toList.drop 4, d2⟩) := by
    simp only [setupPlugins]
    rw [if_pos hq, if_neg (by simp [h1]), h2]
  have hne : q.toList.isEmpty = false := strStartsWith_bnb_ne_empty q hq
  have hqt : quantizeTruthy (some q) = true := by
    simp only [quantizeTruthy]
    rw [hne]
    rfl
  have hstrat : setupStrategy d (some q) = .error .notImplementedMultiDeviceQuant := by
    unfold setupStrategy
    rw [if_pos hd, if_pos hqt]
  exact setup_eq_error_strategy d _ _ _ _ hplug hstrat

/-- C10: requesting any `bnb.` quantization mode while leaving `precision`
at its default `None` makes `setup` fail inside the precision-compatibility
check itself (the `"mixed" in precision` membership test applied to `None`),
for every device count — i.e. before the multi-device configuration-error
decision is ever reached; and any supplied precision outside
`{"16-true", "bf16-true", "32-true"}` also dies inside that check (mixed →
ValueError, otherwise the dtype-dict KeyError), so quantization carries the
unstated precondition that one of those three precision strings is given. -/
theorem setup_quantize_requires_precision :
    (∀ (d : ℕ) (q : String), strStartsWith q "bnb." = true →
      setup d none (some q) = .error .typeErrorNonePrecision) ∧
    (∀ (d : ℕ) (p q : String), strStartsWith q "bnb." = true →
      p ∉ (["16-true", "bf16-true", "32-true"] : List String) →
      setup d (some p) (some q) = .error .valueErrorMixedQuant ∨
      setup d (some p) (some q) = .error .keyErrorUnknownPrecision) := by
  constructor
  · intro d q hq
    have hplug : setupPlugins none (some q) = .error .typeErrorNonePrecision := by
      simp only [setupPlugins]
      rw [if_pos hq]
    exact setup_eq_error_plugins d _ _ _ hplug
  · intro d p q hq hp
    simp only [List.mem_cons, List.mem_singleton] at hp
    push_neg at hp
    obtain ⟨hp1, hp2, hp3, -⟩ := hp
    cases hm : strContains p "mixed" with
    | true =>
      left
      have hplug : setupPlugins (some p) (some q) = .error .valueErrorMixedQuant := by
        simp only [setupPlugins]
        rw [if_pos hq, if_pos hm]
      exact setup_eq_error_plugins d _ _ _ hplug
    | false =>
      right
      have hd1 : ¬(p.toList == "16-true".toList) = true := fun hb =>
        hp1 (string_toList_inj p _ (by exact beq_iff_eq.mp hb))
      have hd2 : ¬(p.toList == "bf16-true".toList) = true := fun hb =>
        hp2 (string_toList_inj p _ (by exact beq_iff_eq.mp hb))
      have hd3 : ¬(p.toList == "32-true".toList) = true := fun hb =>
        hp3 (string_toList_inj p _ (by exact beq_iff_eq.mp hb))
      have hdt : dtypeOf p = none := by
        unfold dtypeOf
        rw [if_neg hd1, if_neg hd2, if_neg hd3]
      have hplug : setupPlugins (some p) (some q) = .error .keyErrorUnknownPrecision := by
        simp only [setupPlugins]
        rw [if_pos hq, if_neg (by simp [hm]), hdt]
      exact setup_eq_error_plugins d _ _ _ hplug

/-- C10 witness: device count 2, `quantize="bnb.nf4"`, default precision. -/
theorem setup_quantize_requires_precision_witness :
    strStartsWith "bnb.nf4" "bnb." = true ∧
    setup 2 none (some "bnb.nf4") = .error .typeErrorNonePrecision :=
  ⟨by decide, setup_quantize_requires_precision.1 2 "bnb.nf4" (by decide)⟩

/-- C5 counterexample: with device count 2, quantization requested and
precision left at its default `None`, `setup` fails — but with the
`TypeError` thrown by the `"mixed" in None` membership test, which is not
one of the configuration-error decisions; so "fails with a configuration
error" is false for this configuration. -/
theorem setup_multi_device_quant_counterexample :
    setup 2 none (some "bnb.nf4") = .error .typeErrorNonePrecision ∧
    ¬IsConfigurationError .typeErrorNonePrecision :=
  ⟨rfl, fun h => h⟩

/-- C5 (amended): for every configuration with device count > 1, a `bnb.`
quantization mode, and an explicit precision among `"16-true"`,
`"bf16-true"`, `"32-true"`, `setup` fails with the multi-device
quantization configuration error (the `NotImplementedError` of lines
81-86), before any training work begins (training starts only with
`fabric.launch` at line 102, after all these checks); with the default
`precision=None` it instead fails even earlier, with a `TypeError` inside
the precision check. -/
theorem setup_multi_device_quant_amended (d : ℕ) (p q : String) (hd : 1 < d)
    (hp : p ∈ (["16-true", "bf16-true", "32-true"] : List String))
    (hq : strStartsWith q "bnb." = true) :
    setup d (some p) (some q) = .error .notImplementedMultiDeviceQuant ∧
    IsConfigurationError .notImplementedMultiDeviceQuant := by
  refine ⟨?_, trivial⟩
  fin_cases hp
  · exact setup_quant_valid_precision d _ q hd hq (by decide) .float16 (by decide)
  · exact setup_quant_valid_precision d _ q hd hq (by decide) .bfloat16 (by decide)
  · exact setup_quant_valid_precision d _ q hd hq (by decide) .float32 (by decide)

/-- C5 amended witness: device count 2, precision `"16-true"`,
`quantize="bnb.nf4"`. -/
theorem setup_multi_device_quant_amended_witness :
    (1 < 2 ∧ "16-true" ∈ (["16-true", "bf16-true", "32-true"] : List String) ∧
      strStartsWith "bnb.nf4" "bnb." = true) ∧
    setup 2 (some "16-true") (some "bnb.nf4") = .error .notImplementedMultiDeviceQuant :=
  ⟨⟨by decide, List.mem_cons_self _ _, by decide⟩,
    (setup_multi_device_quant_amended 2 "16-true" "bnb.nf4" (by decide)
      (List.mem_cons_self _ _) (by decide)).1⟩

/-! ### validate lemmas -/

theorem getBatchCore_snd (rng : ℕ → ℕ) (pos : ℕ) (data : List Example)
    (o : Option ℕ) : (getBatchCore rng pos data o).2 = pos + micro_batch_size := rfl

theorem get_batch_ok (rng : ℕ → ℕ) (pos : ℕ) (data : List Example)
    (o : Option ℕ) (hne : data ≠ []) :
    get_batch rng pos data o = .ok (getBatchCore rng pos data o) := by
  unfold get_batch
  rw [if_neg (fun h0 => hne (List.length_eq_zero.mp h0))]

theorem validateLosses_pure {α : Type} (ce : List (List α) → List (List ℤ) → ℚ)
    (f : List (List ℤ) → List (List α)) (rng : ℕ → ℕ) (data : List Example)
    (hne : data ≠ []) (k : ℕ) (pos : ℕ) :
    validateLosses ce (fun x => .ok (f x)) rng data k pos =
      .ok ((List.range k).map fun t => valLossAt ce f rng data (pos + micro_batch_size * t),
        pos + micro_batch_size * k) := by
  induction k generalizing pos with
  | zero => simp [validateLosses]
  | succ k ih =>
    rw [validateLosses, get_batch_ok rng pos data none hne]
    simp only
    rw [getBatchCore_snd, ih (pos + micro_batch_size)]
    simp only
    rw [List.range_succ_eq_map, List.map_cons, List.map_map]
    have hhead : valLossAt ce f rng data (pos + micro_batch_size * 0) =
        valLossAt ce f rng data pos := by
      rw [Nat.mul_zero, Nat.add_zero]
    have htail : (List.range k).map
        ((fun t => valLossAt ce f rng data (pos + micro_batch_size * t)) ∘ Nat.succ) =
        (List.range k).map
          (fun t => valLossAt ce f rng data (pos + micro_batch_size + micro_batch_size * t)) := by
      apply List.map_congr_left
      intro t _
      show valLossAt ce f rng data (pos + micro_batch_size * (t + 1)) = _
      congr 1
      ring
    have hpos : pos + micro_batch_size + micro_batch_size * k =
        pos + micro_batch_size * (k + 1) := by ring
    rw [hhead, htail, hpos]
    rfl

/-- C6: on a non-empty validation set with a pure (non-failing) forward pass
and a non-failing sample-generation block, `validate` draws exactly
`eval_iters` batches through the batch sampler (the RNG cursor advances by
exactly `micro_batch_size * eval_iters`, `micro_batch_size` per drawn
batch), records for batch `t` the loss
`ce(logits[..., :-1, :], targets[..., 1:])`, and returns the arithmetic
mean (sum divided by `eval_iters`) of those `eval_iters` per-batch losses;
the shift convention drops the final logit position and pairs the logit at
position `i` with the target at position `i + 1`. -/
theorem validate_mean_shift {α : Type} (ce : List (List α) → List (List ℤ) → ℚ)
    (f : List (List ℤ) → List (List α)) (rng : ℕ → ℕ) (data : List Example)
    (pos : ℕ) (hne : data ≠ []) :
    validate ce (fun x => .ok (f x)) (.ok ()) rng data pos =
      (.ok ((((List.range eval_iters).map fun t =>
          valLossAt ce f rng data (pos + micro_batch_size * t)).sum / (eval_iters : ℚ)),
        pos + micro_batch_size * eval_iters), .trainMode) ∧
    ((List.range eval_iters).map fun t =>
        valLossAt ce f rng data (pos + micro_batch_size * t)).length = eval_iters ∧
    (∀ t : ℕ, valLossAt ce f rng data t =
      ce (shiftLogits (f (getBatchCore rng t data none).1.1))
        (shiftTargets (getBatchCore rng t data none).1.2)) ∧
    (∀ q : ℕ, (getBatchCore rng q data none).2 = q + micro_batch_size) ∧
    (∀ (logits : List (List α)) (k : ℕ),
      (shiftLogits logits).get? k = (logits.get? k).map List.dropLast) ∧
    (∀ (targets : List (List ℤ)) (k : ℕ),
      (shiftTargets targets).get? k = (targets.get? k).map (List.drop 1)) ∧
    (∀ lrow : List α, lrow.dropLast.length = lrow.length - 1 ∧
      ∀ i, i + 1 < lrow.length → lrow.dropLast.get? i = lrow.get? i) ∧
    (∀ (trow : List ℤ) (i : ℕ), (trow.drop 1).get? i = trow.get? (1 + i)) := by
  refine ⟨?_, ?_, fun t => rfl, fun q => rfl, ?_, ?_, ?_, ?_⟩
  · unfold validate
    rw [validateLosses_pure ce f rng data hne eval_iters pos]
  · rw [List.length_map, List.length_range]
  · intro logits k
    unfold shiftLogits
    rw [List.get?_map]
  · intro targets k
    unfold shiftTargets
    rw [List.get?_map]
  · intro lrow
    refine ⟨List.length_dropLast lrow, ?_⟩
    intro i hi
    rw [List.dropLast_eq_take]
    exact List.get?_take (by omega)
  · intro trow i
    exact List.get?_drop trow 1 i

/-- C6 witness: a concrete one-example dataset; one sampler call advances
the RNG cursor by `micro_batch_size`. -/
theorem validate_mean_shift_witness :
    (([⟨[1], [2]⟩] : List Example) ≠ []) ∧
    (getBatchCore (fun _ => 0) 0 ([⟨[1], [2]⟩] : List Example) none).2 =
      0 + micro_batch_size :=
  ⟨by decide,
    (validate_mean_shift (fun _ _ => (0 : ℚ)) (fun x => x) (fun _ => 0)
      [⟨[1], [2]⟩] 0 (by decide)).2.2.2.1 0⟩

/-- C7 counterexample: when the first forward pass of the loss loop raises
(e.g. out-of-memory), the error propagates out of `validate` — there is no
`try`/`finally` — and the model is left in inference mode, not switched
back to training mode as the claim requires. -/
theorem validate_mode_counterexample :
    (validate (fun (_ : List (List ℤ)) (_ : List (List ℤ)) => (0 : ℚ))
      (fun _ => .error .runtimeError) (.ok ()) (fun _ => 0)
      ([⟨[0], [0]⟩] : List Example) 0).2 = Mode.evalMode ∧
    Mode.evalMode ≠ Mode.trainMode :=
  ⟨rfl, by decide⟩

/-- C7 (amended): `validate` returns with the model in training mode exactly
on the normal (successful) path; on every failing path — a batch-draw
failure, a forward-pass failure during the loss loop, or a failure in the
prompt-encoding / cache-allocation / generation sample block — the error
propagates and the model is left in inference (eval) mode. -/
theorem validate_mode_amended {α : Type} (ce : List (List α) → List (List ℤ) → ℚ)
    (forward : List (List ℤ) → Except RuntimeErr (List (List α)))
    (sampleBlock : Except RuntimeErr Unit) (rng : ℕ → ℕ) (data : List Example)
    (pos : ℕ) :
    (validate ce forward sampleBlock rng data pos).2 =
      (match (validate ce forward sampleBlock rng data pos).1 with
        | .ok _ => Mode.trainMode
        | .error _ => Mode.evalMode) := by
  unfold validate
  cases validateLosses ce forward rng data eval_iters pos with
  | error e => rfl
  | ok r =>
    cases sampleBlock with
    | error e => rfl
    | ok u => rfl

theorem batchIx_congr_draws (rng rng2 : ℕ → ℕ) (q q2 : ℕ) (data : List Example)
    (h : ∀ k, k < micro_batch_size → rng (q + k) = rng2 (q2 + k)) :
    batchIx rng q data none = batchIx rng2 q2 data none := by
  show sampledIx rng q data.length = sampledIx rng2 q2 data.length
  rw [sampledIx_eq, sampledIx_eq, h 0 (by decide), h 1 (by decide), h 2 (by decide)]

theorem getBatchCore_fst_congr_ix (rng rng2 : ℕ → ℕ) (q q2 : ℕ)
    (data : List Example) (o : Option ℕ)
    (hix : batchIx rng q data o = batchIx rng2 q2 data o) :
    (getBatchCore rng q data o).1 = (getBatchCore rng2 q2 data o).1 := by
  have hIn : batchInputs rng q data o = batchInputs rng2 q2 data o := by
    unfold batchInputs
    rw [hix]
  have hLab : batchLabels rng q data o = batchLabels rng2 q2 data o := by
    unfold batchLabels
    rw [hix]
  show ((batchInputs rng q data o).map fun s =>
      pad_right s (maxLenOf (batchInputs rng q data o)) 0,
    (batchLabels rng q data o).map fun s =>
      pad_right s (maxLenOf (batchInputs rng q data o)) (-1)) =
    ((batchInputs rng2 q2 data o).map fun s =>
      pad_right s (maxLenOf (batchInputs rng2 q2 data o)) 0,
    (batchLabels rng2 q2 data o).map fun s =>
      pad_right s (maxLenOf (batchInputs rng2 q2 data o)) (-1))
  rw [hIn, hLab]

theorem valLossAt_congr_ix {α : Type} (ce : List (List α) → List (List ℤ) → ℚ)
    (f : List (List ℤ) → List (List α)) (rng rng2 : ℕ → ℕ) (q q2 : ℕ)
    (data : List Example)
    (hix : batchIx rng q data none = batchIx rng2 q2 data none) :
    valLossAt ce f rng data q = valLossAt ce f rng2 data q2 := by
  unfold valLossAt
  have h := getBatchCore_fst_congr_ix rng rng2 q q2 data none hix
  rw [show (getBatchCore rng q data none).1.1 = (getBatchCore rng2 q2 data none).1.1 from
      congrArg Prod.fst h,
    show (getBatchCore rng q data none).1.2 = (getBatchCore rng2 q2 data none).1.2 from
      congrArg Prod.snd h]

/-- C9 (amended): the mean loss computed by `validate` is a deterministic
function of the model, the loss kernel, the validation set and the random
index draws it consumes: two runs whose `micro_batch_size * eval_iters`
consumed draws coincide produce the same mean.  (Two *successive* runs
consume disjoint segments of the RNG stream and so may differ — see the
counterexample.) -/
theorem validate_determinism_amended {α : Type}
    (ce : List (List α) → List (List ℤ) → ℚ)
    (f : List (List ℤ) → List (List α)) (rng rng2 : ℕ → ℕ)
    (data : List Example) (pos pos2 : ℕ) (hne : data ≠ [])
    (h : ∀ t, t < micro_batch_size * eval_iters → rng (pos + t) = rng2 (pos2 + t)) :
    valMean (validate ce (fun x => .ok (f x)) (.ok ()) rng data pos) =
      valMean (validate ce (fun x => .ok (f x)) (.ok ()) rng2 data pos2) := by
  have hmap : (List.range eval_iters).map
      (fun t => valLossAt ce f rng data (pos + micro_batch_size * t)) =
      (List.range eval_iters).map
      (fun t => valLossAt ce f rng2 data (pos2 + micro_batch_size * t)) := by
    apply List.map_congr_left
    intro t ht
    have ht2 : t < eval_iters := List.mem_range.mp ht
    apply valLossAt_congr_ix
    apply batchIx_congr_draws
    intro k hk
    have e1 : pos + micro_batch_size * t + k = pos + (micro_batch_size * t + k) := by ring
    have e2 : pos2 + micro_batch_size * t + k = pos2 + (micro_batch_size * t + k) := by ring
    rw [e1, e2]
    apply h
    have h3 : micro_batch_size = 3 := rfl
    have h300 : eval_iters = 300 := rfl
    rw [h3] at hk ⊢
    rw [h300] at ht2 ⊢
    omega
  have v1 : validate ce (fun x => .ok (f x)) (.ok ()) rng data pos =
      (.ok ((((List.range eval_iters).map fun t =>
        valLossAt ce f rng data (pos + micro_batch_size * t)).sum / (eval_iters : ℚ)),
        pos + micro_batch_size * eval_iters), .trainMode) := by
    unfold validate
    rw [validateLosses_pure ce f rng data hne eval_iters pos]
  have v2 : validate ce (fun x => .ok (f x)) (.ok ()) rng2 data pos2 =
      (.ok ((((List.range eval_iters).map fun t =>
        valLossAt ce f rng2 data (pos2 + micro_batch_size * t)).sum / (eval_iters : ℚ)),
        pos2 + micro_batch_size * eval_iters), .trainMode) := by
    unfold validate
    rw [validateLosses_pure ce f rng2 data hne eval_iters pos2]
  rw [v1, v2, hmap]
  rfl

/-- C9 amended witness: two runs reading identical draws through shifted
streams produce the same mean. -/
theorem validate_determinism_amended_witness :
    (([⟨[1], [2]⟩] : List Example) ≠ [] ∧
      (∀ t, t < micro_batch_size * eval_iters →
        (fun u : ℕ => u) (0 + t) = (fun u : ℕ => u - 17) (17 + t))) ∧
    valMean (validate (fun (_ : List (List ℤ)) (_ : List (List ℤ)) => (0 : ℚ))
        (fun x => .ok (id x)) (.ok ()) (fun u : ℕ => u) ([⟨[1], [2]⟩] : List Example) 0) =
      valMean (validate (fun (_ : List (List ℤ)) (_ : List (List ℤ)) => (0 : ℚ))
        (fun x => .ok (id x)) (.ok ()) (fun u : ℕ => u - 17)
        ([⟨[1], [2]⟩] : List Example) 17) :=
  ⟨⟨by decide, fun t _ => by show 0 + t = 17 + t - 17; omega⟩,
    validate_determinism_amended (fun _ _ => (0 : ℚ)) id (fun u => u) (fun u => u - 17)
      [⟨[1], [2]⟩] 0 17 (by decide) (fun t _ => by show 0 + t = 17 + t - 17; omega)⟩

/-- C9 counterexample: two successive `validate` runs (the second starting
at the RNG cursor where the first ended, as in real execution where the
global RNG advances) on the same two-example validation set, with the same
fixed model and loss kernel, draw different random batches and return
different mean losses (0 versus 1). -/
theorem validate_rerun_counterexample :
    (validate (fun (logits : List (List ℤ)) (_ : List (List ℤ)) =>
        ((logits.headD []).length : ℚ))
      (fun x => .ok (id x)) (.ok ()) (fun t : ℕ => if t < 900 then 0 else 1)
      ([⟨[10], [20]⟩, ⟨[11, 12], [21, 22]⟩] : List Example) 0).1 = .ok (0, 900) ∧
    (validate (fun (logits : List (List ℤ)) (_ : List (List ℤ)) =>
        ((logits.headD []).length : ℚ))
      (fun x => .ok (id x)) (.ok ()) (fun t : ℕ => if t < 900 then 0 else 1)
      ([⟨[10], [20]⟩, ⟨[11, 12], [21, 22]⟩] : List Example) 900).1 = .ok (1, 1800) ∧
    ((0 : ℚ) ≠ (1 : ℚ)) := by
  have hne2 : ([⟨[10], [20]⟩, ⟨[11, 12], [21, 22]⟩] : List Example) ≠ [] := by decide
  have hix0 : ∀ q : ℕ, q + 2 < 900 →
      batchIx (fun t : ℕ => if t < 900 then 0 else 1) q
        ([⟨[10], [20]⟩, ⟨[11, 12], [21, 22]⟩] : List Example) none =
      batchIx (fun _ => 0) 0 ([⟨[10], [20]⟩, ⟨[11, 12], [21, 22]⟩] : List Example) none := by
    intro q hq
    simp only [batchIx, effectiveIx]
    rw [sampledIx_eq, sampledIx_eq, if_pos (show q + 0 < 900 by omega),
      if_pos (show q + 1 < 900 by omega), if_pos (show q + 2 < 900 by omega)]
  have hix1 : ∀ q : ℕ, 900 ≤ q →
      batchIx (fun t : ℕ => if t < 900 then 0 else 1) q
        ([⟨[10], [20]⟩, ⟨[11, 12], [21, 22]⟩] : List Example) none =
      batchIx (fun _ => (1 : ℕ)) 0
        ([⟨[10], [20]⟩, ⟨[11, 12], [21, 22]⟩] : List Example) none := by
    intro q hq
    simp only [batchIx, effectiveIx]
    rw [sampledIx_eq, sampledIx_eq, if_neg (show ¬(q + 0 < 900) by omega),
      if_neg (show ¬(q + 1 < 900) by omega), if_neg (show ¬(q + 2 < 900) by omega)]
  have hL0 : valLossAt (fun (logits : List (List ℤ)) (_ : List (List ℤ)) =>
      ((logits.headD []).length : ℚ)) id (fun _ => 0)
      ([⟨[10], [20]⟩, ⟨[11, 12], [21, 22]⟩] : List Example) 0 = 0 := by decide
  have hL1 : valLossAt (fun (logits : List (List ℤ)) (_ : List (List ℤ)) =>
      ((logits.headD []).length : ℚ)) id (fun _ => (1 : ℕ))
      ([⟨[10], [20]⟩, ⟨[11, 12], [21, 22]⟩] : List Example) 0 = 1 := by decide
  have hv0 : ∀ q : ℕ, q + 2 < 900 →
      valLossAt (fun (logits : List (List ℤ)) (_ : List (List ℤ)) =>
        ((logits.headD []).length : ℚ)) id (fun t : ℕ => if t < 900 then 0 else 1)
        ([⟨[10], [20]⟩, ⟨[11, 12], [21, 22]⟩] : List Example) q = 0 := by
    intro q hq
    rw [valLossAt_congr_ix _ id _ (fun _ => 0) q 0 _ (hix0 q hq), hL0]
  have hv1 : ∀ q : ℕ, 900 ≤ q →
      valLossAt (fun (logits : List (List ℤ)) (_ : List (List ℤ)) =>
        ((logits.headD []).length : ℚ)) id (fun t : ℕ => if t < 900 then 0 else 1)
        ([⟨[10], [20]⟩, ⟨[11, 12], [21, 22]⟩] : List Example) q = 1 := by
    intro q hq
    rw [valLossAt_congr_ix _ id _ (fun _ => (1 : ℕ)) q 0 _ (hix1 q hq), hL1]
  have m1 : (List.range eval_iters).map (fun t =>
      valLossAt (fun (logits : List (List ℤ)) (_ : List (List ℤ)) =>
        ((logits.headD []).length : ℚ)) id (fun t : ℕ => if t < 900 then 0 else 1)
        ([⟨[10], [20]⟩, ⟨[11, 12], [21, 22]⟩] : List Example)
        (0 + micro_batch_size * t)) = List.replicate eval_iters (0 : ℚ) := by
    have hcg : ∀ t ∈ List.range eval_iters,
        valLossAt (fun (logits : List (List ℤ)) (_ : List (List ℤ)) =>
          ((logits.headD []).length : ℚ)) id (fun t : ℕ => if t < 900 then 0 else 1)
          ([⟨[10], [20]⟩, ⟨[11, 12], [21, 22]⟩] : List Example)
          (0 + micro_batch_size * t) = (fun _ : ℕ => (0 : ℚ)) t := by
      intro t ht
      have ht2 : t < 300 := List.mem_range.mp ht
      apply hv0
      show 0 + micro_batch_size * t + 2 < 900
      have h3 : micro_batch_size = 3 := rfl
      rw [h3]
      omega
    rw [List.map_congr_left hcg,
      show (fun _ : ℕ => (0 : ℚ)) = Function.const ℕ (0 : ℚ) from rfl,
      List.map_const, List.length_range]
  have m2 : (List.range eval_iters).map (fun t =>
      valLossAt (fun (logits : List (List ℤ)) (_ : List (List ℤ)) =>
        ((logits.headD []).length : ℚ)) id (fun t : ℕ => if t < 900 then 0 else 1)
        ([⟨[10], [20]⟩, ⟨[11, 12], [21, 22]⟩] : List Example)
        (900 + micro_batch_size * t)) = List.replicate eval_iters (1 : ℚ) := by
    have hcg : ∀ t ∈ List.range eval_iters,
        valLossAt (fun (logits : List (List ℤ)) (_ : List (List ℤ)) =>
          ((logits.headD []).length : ℚ)) id (fun t : ℕ => if t < 900 then 0 else 1)
          ([⟨[10], [20]⟩, ⟨[11, 12], [21, 22]⟩] : List Example)
          (900 + micro_batch_size * t) = (fun _ : ℕ => (1 : ℚ)) t := by
      intro t _
      apply hv1
      omega
    rw [List.map_congr_left hcg,
      show (fun _ : ℕ => (1 : ℚ)) = Function.const ℕ (1 : ℚ) from rfl,
      List.map_const, List.length_range]
  have v1 : validate (fun (logits : List (List ℤ)) (_ : List (List ℤ)) =>
        ((logits.headD []).length : ℚ))
      (fun x => .ok (id x)) (.ok ()) (fun t : ℕ => if t < 900 then 0 else 1)
      ([⟨[10], [20]⟩, ⟨[11, 12], [21, 22]⟩] : List Example) 0 =
      (.ok ((((List.range eval_iters).map fun t =>
        valLossAt (fun (logits : List (List ℤ)) (_ : List (List ℤ)) =>
          ((logits.headD []).length : ℚ)) id (fun t : ℕ => if t < 900 then 0 else 1)
          ([⟨[10], [20]⟩, ⟨[11, 12], [21, 22]⟩] : List Example)
          (0 + micro_batch_size * t)).sum / (eval_iters : ℚ)),
        0 + micro_batch_size * eval_iters), .trainMode) := by
    unfold validate
    rw [validateLosses_pure _ id _ _ hne2 eval_iters 0]
  have v2 : validate (fun (logits : List (List ℤ)) (_ : List (List ℤ)) =>
        ((logits.headD []).length : ℚ))
      (fun x => .ok (id x)) (.ok ()) (fun t : ℕ => if t < 900 then 0 else 1)
      ([⟨[10], [20]⟩, ⟨[11, 12], [21, 22]⟩] : List Example) 900 =
      (.ok ((((List.range eval_iters).map fun t =>
        valLossAt (fun (logits : List (List ℤ)) (_ : List (List ℤ)) =>
          ((logits.headD []).length : ℚ)) id (fun t : ℕ => if t < 900 then 0 else 1)
          ([⟨[10], [20]⟩, ⟨[11, 12], [21, 22]⟩] : List Example)
          (900 + micro_batch_size * t)).sum / (eval_iters : ℚ)),
        900 + micro_batch_size * eval_iters), .trainMode) := by
    unfold validate
    rw [validateLosses_pure _ id _ _ hne2 eval_iters 900]
  refine ⟨?_, ?_, by norm_num⟩
  · rw [v1, m1, List.sum_replicate]
    norm_num [micro_batch_size, eval_iters]
  · rw [v2, m2, List.sum_replicate]
    show Except.ok ((eval_iters • (1 : ℚ)) / (eval_iters : ℚ), 900 + micro_batch_size * eval_iters) =
      Except.ok (1, 1800)
    norm_num [eval_iters, micro_batch_size]
